import Mathlib

/-!
Verification development for a single-page chat UI (`src/index.tsx`).

The program is a thin glue layer between a DOM form and a remote chat
client.  We shallowly embed its state as `AppState`: the ordered list of
rendered message elements (`messageList`), the scroll position, the text
input field, the console log, and flags recording whether the chat session
was created and whether the form submit handler was registered.  Each DOM
element carries a unique numeric `id` standing for JavaScript object
identity, so that `element.remove()` can be modelled as removal by id.

The Markdown renderer (`marked.parse`) and the remote chat client
(`chat.sendMessage`) are external collaborators: the renderer is a
parameter `parse : String → String`, and the outcome of a remote call is an
injected `Except String String` (error description, or reply text).

Every state-changing operation also appends to an `events` trace so that
ordering properties ("before any network call is issued") can be stated.
-/

/-- JavaScript `String.prototype.trim`, modelled over the character list:
strip leading and trailing whitespace. -/
def trimChars (cs : List Char) : List Char :=
  ((cs.dropWhile Char.isWhitespace).reverse.dropWhile Char.isWhitespace).reverse

def jsTrim (s : String) : String := ⟨trimChars s.data⟩

inductive Role where
  | user : Role
  | model : Role
deriving DecidableEq

/-- A rendered DOM element in the message list: `classes` is its CSS class
list, `text` the source text handed to the renderer (or the literal HTML
for direct `innerHTML` writes), `html` the resulting inner HTML. -/
structure Elem where
  id : Nat
  classes : List String
  text : String
  html : String
deriving DecidableEq

inductive Event where
  | appendMessage (id : Nat) (role : Role) (text : String) : Event
  | appendLoading (id : Nat) : Event
  | removeEl (id : Nat) : Event
  | networkSend (msg : String) : Event
  | clearInput : Event
  | consoleError (msg : String) : Event
deriving DecidableEq

structure AppState where
  messageList : List Elem
  scrollTop : Nat
  chatInput : String
  nextId : Nat
  consoleLog : List String
  handlerRegistered : Bool
  chatCreated : Bool
  halted : Bool
  events : List Event
deriving DecidableEq

/-- The scroll extent of the message list grows with each appended element;
`messageList.scrollHeight` is modelled as the number of elements. -/
def scrollHeight (l : List Elem) : Nat := l.length

def roleClass : Role → String
  | Role.user => "user-message"
  | Role.model => "model-message"

/-- Embeds `renderMessage` (src/index.tsx lines 56-63): create a div with
classes `message` and `role-message`, set its innerHTML to the Markdown
rendering of `text`, append it, scroll to the bottom, return the element. -/
def renderMessage (parse : String → String) (role : Role) (text : String)
    (s : AppState) : Elem × AppState :=
  let messageEl : Elem :=
    { id := s.nextId, classes := ["message", roleClass role],
      text := text, html := parse text }
  let newList := s.messageList ++ [messageEl]
  (messageEl,
   { s with messageList := newList, scrollTop := scrollHeight newList,
            nextId := s.nextId + 1,
            events := s.events ++ [Event.appendMessage messageEl.id role text] })

/-- Embeds `renderLoadingIndicator` (lines 69-76): append a div with classes
`message`, `model-message`, `loading` and innerHTML `Thinking...`, scroll,
return the element. -/
def renderLoadingIndicator (s : AppState) : Elem × AppState :=
  let loadingEl : Elem :=
    { id := s.nextId, classes := ["message", "model-message", "loading"],
      text := "Thinking...", html := "Thinking..." }
  let newList := s.messageList ++ [loadingEl]
  (loadingEl,
   { s with messageList := newList, scrollTop := scrollHeight newList,
            nextId := s.nextId + 1,
            events := s.events ++ [Event.appendLoading loadingEl.id] })

/-- Embeds `element.remove()`: detach the element from the list (a no-op if
already detached); object identity is the `id` field. -/
def removeElem (el : Elem) (s : AppState) : AppState :=
  { s with messageList := s.messageList.filter (fun e => e.id ≠ el.id),
           events := s.events ++ [Event.removeEl el.id] }

/-- The error bubble text built on the user-submission failure path
(line 99): the raw error detail is spliced into a fenced code block. -/
def errSubmitText (err : String) : String :=
  "**Error:** Something went wrong. Please try again. \n\n```" ++ err ++ "```"

/-- The error bubble text built on the bootstrap failure path (line 116). -/
def errInitText (err : String) : String :=
  "**Error:** Could not initialize chat. \n\n```" ++ err ++ "```"

/-- Embeds the `chatForm` submit handler (lines 81-102).  `outcome` is what
`chat.sendMessage({ message: userInput })` does: `Except.ok reply` when the
remote call resolves with reply text, `Except.error e` when it rejects and
the thrown value stringifies to `e`. -/
def chatFormSubmit (parse : String → String) (outcome : Except String String)
    (s : AppState) : AppState :=
  if jsTrim s.chatInput = "" then s
  else
    let s1 : AppState :=
      { s with chatInput := "", events := s.events ++ [Event.clearInput] }
    let s2 : AppState := (renderMessage parse Role.user (jsTrim s.chatInput) s1).2
    let loadingIndicator : Elem := (renderLoadingIndicator s2).1
    let s3 : AppState := (renderLoadingIndicator s2).2
    let s4 : AppState :=
      { s3 with events := s3.events ++ [Event.networkSend (jsTrim s.chatInput)] }
    match outcome with
    | Except.ok text =>
        (renderMessage parse Role.model text (removeElem loadingIndicator s4)).2
    | Except.error err =>
        let s5 : AppState :=
          (renderMessage parse Role.model (errSubmitText err)
            (removeElem loadingIndicator s4)).2
        { s5 with consoleLog := s5.consoleLog ++ [err],
                  events := s5.events ++ [Event.consoleError err] }

/-- Embeds `initializeChat` (lines 107-119): show a loading indicator, send
the synthetic `Hello` message, then render the reply (or the error bubble,
also logging the error). -/
def initializeChat (parse : String → String) (outcome : Except String String)
    (s : AppState) : AppState :=
  let loadingIndicator : Elem := (renderLoadingIndicator s).1
  let s1 : AppState := (renderLoadingIndicator s).2
  let s2 : AppState := { s1 with events := s1.events ++ [Event.networkSend "Hello"] }
  match outcome with
  | Except.ok text =>
      (renderMessage parse Role.model text (removeElem loadingIndicator s2)).2
  | Except.error err =>
      let s3 : AppState :=
        (renderMessage parse Role.model (errInitText err)
          (removeElem loadingIndicator s2)).2
      { s3 with consoleLog := s3.consoleLog ++ [err],
                events := s3.events ++ [Event.consoleError err] }

/-- The fresh page state before the module body runs: empty message list,
empty input, nothing registered. -/
def initState : AppState :=
  { messageList := [], scrollTop := 0, chatInput := "", nextId := 0,
    consoleLog := [], handlerRegistered := false, chatCreated := false,
    halted := false, events := [] }

/-- Embeds the JavaScript truthiness test `!API_KEY` (line 17): the check
fires when the environment variable is absent or the empty string. -/
def keyMissing : Option String → Bool
  | none => true
  | some k => k == ""

/-- The single error div written by `messageList.innerHTML = ...` on the
missing-key path (lines 18-22). -/
def missingKeyErrorElem : Elem :=
  { id := 0, classes := ["message", "model-message"],
    text := "<p><strong>Error:</strong> API_KEY environment variable not set.</p><p>Please follow the instructions in the README to set up your API key.</p>",
    html := "<p><strong>Error:</strong> API_KEY environment variable not set.</p><p>Please follow the instructions in the README to set up your API key.</p>" }

/-- Embeds the module top level (lines 16-24, 26, 41-46, 81, 121-122).  When
the key is missing, the error div is rendered and `throw new Error(...)`
aborts evaluation of the rest of the module body, so the chat session is
never created and `chatForm.addEventListener` (line 81) never runs.  When
the key is present, the session is created, the submit handler is
registered, and `initializeChat()` is invoked. -/
def startup (parse : String → String) (apiKey : Option String)
    (initOutcome : Except String String) : AppState :=
  if keyMissing apiKey then
    { initState with messageList := [missingKeyErrorElem], nextId := 1,
                     halted := true }
  else
    initializeChat parse initOutcome
      { initState with chatCreated := true, handlerRegistered := true }

/-- Dispatching a `submit` event on the form: the handler runs only if it
was registered. -/
def dispatchSubmit (parse : String → String) (outcome : Except String String)
    (s : AppState) : AppState :=
  if s.handlerRegistered then chatFormSubmit parse outcome s else s

/-- The user types `input` into the field and submits the form. -/
def typeAndSubmit (parse : String → String) (input : String)
    (outcome : Except String String) (s : AppState) : AppState :=
  dispatchSubmit parse outcome { s with chatInput := input }

/-- A whole interactive session: a list of (typed input, remote outcome)
pairs processed in order. -/
def runSubmits (parse : String → String) (s : AppState) :
    List (String × Except String String) → AppState
  | [] => s
  | (input, outcome) :: rest =>
      runSubmits parse (typeAndSubmit parse input outcome s) rest

/-- Trace projections. -/
def loadAppends (evs : List Event) : List Nat :=
  evs.filterMap fun e =>
    match e with
    | Event.appendLoading i => some i
    | _ => none

def elRemovals (evs : List Event) : List Nat :=
  evs.filterMap fun e =>
    match e with
    | Event.removeEl i => some i
    | _ => none

def userAppendTexts (evs : List Event) : List String :=
  evs.filterMap fun e =>
    match e with
    | Event.appendMessage _ Role.user t => some t
    | _ => none

def modelAppendTexts (evs : List Event) : List String :=
  evs.filterMap fun e =>
    match e with
    | Event.appendMessage _ Role.model t => some t
    | _ => none

def netSends (evs : List Event) : List String :=
  evs.filterMap fun e =>
    match e with
    | Event.networkSend m => some m
    | _ => none

/-- The events a transition from `s` to `t` emitted (the trace is
append-only). -/
def emitted (s t : AppState) : List Event := t.events.drop s.events.length

/-- Number of user-role bubbles visible in the view. -/
def userBubbleCount (l : List Elem) : Nat :=
  (l.filter fun e => "user-message" ∈ e.classes).length

/-- Element ids in the view are below the id counter; this holds for every
state the program actually reaches and makes id-based removal faithful to
DOM node identity. -/
def wfState (s : AppState) : Prop := ∀ e ∈ s.messageList, e.id < s.nextId

instance (s : AppState) : Decidable (wfState s) := by
  unfold wfState; infer_instance

/-- A concrete state used to instantiate theorems: handler registered,
session created, the user has typed `" hi "`. -/
def sampleState : AppState :=
  { initState with chatInput := " hi ", handlerRegistered := true,
                   chatCreated := true }

/-- Reply text appended as the model bubble for a given remote outcome on
the user-submission path. -/
def submitReplyText : Except String String → String
  | Except.ok t => t
  | Except.error e => errSubmitText e

/-- A blank-input state used to instantiate theorems. -/
def blankState : AppState :=
  { initState with chatInput := "   ", handlerRegistered := true,
                   chatCreated := true }

/-- C10: every append operation on the view — a user or model message via
`renderMessage` and the loading indicator via `renderLoadingIndicator` —
sets the scroll position to the full scroll height, showing the newest
entry. -/
theorem C10_every_append_scrolls (parse : String → String) (role : Role)
    (text : String) (s : AppState) :
    (renderMessage parse role text s).2.scrollTop =
      scrollHeight (renderMessage parse role text s).2.messageList ∧
    (renderLoadingIndicator s).2.scrollTop =
      scrollHeight (renderLoadingIndicator s).2.messageList := by
  exact ⟨rfl, rfl⟩

/-- C4: submitting while the trimmed input is empty is a complete no-op:
the handler returns with the state unchanged — zero messages appended, no
network call, input left as-is. -/
theorem C4_blank_input_is_noop (parse : String → String)
    (outcome : Except String String) (s : AppState)
    (h : jsTrim s.chatInput = "") :
    chatFormSubmit parse outcome s = s := by
  simp [chatFormSubmit, h]

theorem C4_blank_input_is_noop_witness :
    jsTrim blankState.chatInput = "" ∧
    chatFormSubmit (fun t => t) (Except.ok "reply") blankState = blankState :=
  ⟨by decide,
   C4_blank_input_is_noop (fun t => t) (Except.ok "reply") blankState (by decide)⟩

/-- C1 counterexample: with the credential absent, the submit handler is
NOT registered afterwards — the claim that it "is nevertheless registered"
fails: the top-level `throw` aborts the module body before
`chatForm.addEventListener` runs. -/
theorem C1_counterexample :
    ¬ ((startup (fun t => t) none (Except.ok "hi")).handlerRegistered = true) := by
  decide

/-- C1 (amended): if the required API credential is absent at startup, the
conversation view contains exactly one error message, no chat session is
created, and the submit handler is never registered, so submitting input
afterwards only records the typed text and has no other effect. -/
theorem C1_missing_key_halts (parse : String → String) (key : Option String)
    (out outcome2 : Except String String) (input : String)
    (h : keyMissing key = true) :
    (startup parse key out).messageList = [missingKeyErrorElem] ∧
    (startup parse key out).chatCreated = false ∧
    (startup parse key out).handlerRegistered = false ∧
    typeAndSubmit parse input outcome2 (startup parse key out) =
      { startup parse key out with chatInput := input } := by
  simp [startup, h, typeAndSubmit, dispatchSubmit, initState]

theorem C1_missing_key_halts_witness :
    keyMissing none = true ∧
    ((startup (fun t => t) none (Except.ok "x")).messageList = [missingKeyErrorElem] ∧
     (startup (fun t => t) none (Except.ok "x")).chatCreated = false ∧
     (startup (fun t => t) none (Except.ok "x")).handlerRegistered = false ∧
     typeAndSubmit (fun t => t) "2+2=?" (Except.ok "y") (startup (fun t => t) none (Except.ok "x")) =
       { startup (fun t => t) none (Except.ok "x") with chatInput := "2+2=?" }) :=
  ⟨by decide,
   C1_missing_key_halts (fun t => t) none (Except.ok "x") (Except.ok "y") "2+2=?" (by decide)⟩

/-- C2: for every submission with non-blank input and for the bootstrap's
initial send, exactly one loading indicator is appended, and that same
indicator (same id) is removed exactly once, whether the remote call
succeeds or fails. -/
theorem C2_loading_indicator_once (parse : String → String)
    (outcome : Except String String) (s : AppState)
    (h : ¬ jsTrim s.chatInput = "") :
    (∃ L, loadAppends (emitted s (chatFormSubmit parse outcome s)) = [L] ∧
          elRemovals (emitted s (chatFormSubmit parse outcome s)) = [L]) ∧
    (∃ L, loadAppends (emitted s (initializeChat parse outcome s)) = [L] ∧
          elRemovals (emitted s (initializeChat parse outcome s)) = [L]) := by
  cases outcome with
  | ok text =>
      refine ⟨⟨s.nextId + 1, ?_, ?_⟩, ⟨s.nextId, ?_, ?_⟩⟩ <;>
        simp [chatFormSubmit, initializeChat, renderMessage,
              renderLoadingIndicator, removeElem, h, emitted, loadAppends,
              elRemovals, List.drop_left]
  | error err =>
      refine ⟨⟨s.nextId + 1, ?_, ?_⟩, ⟨s.nextId, ?_, ?_⟩⟩ <;>
        simp [chatFormSubmit, initializeChat, renderMessage,
              renderLoadingIndicator, removeElem, h, emitted, loadAppends,
              elRemovals, List.drop_left]

theorem C2_loading_indicator_once_witness :
    ¬ jsTrim sampleState.chatInput = "" ∧
    ((∃ L, loadAppends (emitted sampleState (chatFormSubmit (fun t => t) (Except.ok "reply") sampleState)) = [L] ∧
           elRemovals (emitted sampleState (chatFormSubmit (fun t => t) (Except.ok "reply") sampleState)) = [L]) ∧
     (∃ L, loadAppends (emitted sampleState (initializeChat (fun t => t) (Except.ok "reply") sampleState)) = [L] ∧
           elRemovals (emitted sampleState (initializeChat (fun t => t) (Except.ok "reply") sampleState)) = [L])) :=
  ⟨by decide,
   C2_loading_indicator_once (fun t => t) (Except.ok "reply") sampleState (by decide)⟩

/-- C3: for non-blank input, the trace emitted by the submit handler starts
with clearing the input and appending exactly one user-role message holding
the trimmed text, both strictly before the network send; no further
user-role message is ever appended, and the input field ends cleared. -/
theorem C3_user_message_before_send (parse : String → String)
    (outcome : Except String String) (s : AppState)
    (h : ¬ jsTrim s.chatInput = "") :
    ∃ rest,
      emitted s (chatFormSubmit parse outcome s) =
        Event.clearInput ::
          Event.appendMessage s.nextId Role.user (jsTrim s.chatInput) ::
            Event.appendLoading (s.nextId + 1) ::
              Event.networkSend (jsTrim s.chatInput) :: rest ∧
      userAppendTexts rest = [] ∧
      (chatFormSubmit parse outcome s).chatInput = "" := by
  cases outcome with
  | ok text =>
      refine ⟨[Event.removeEl (s.nextId + 1),
               Event.appendMessage (s.nextId + 2) Role.model text], ?_, ?_, ?_⟩ <;>
        simp [chatFormSubmit, renderMessage, renderLoadingIndicator,
              removeElem, h, emitted, userAppendTexts, roleClass, List.drop_left]
  | error err =>
      refine ⟨[Event.removeEl (s.nextId + 1),
               Event.appendMessage (s.nextId + 2) Role.model (errSubmitText err),
               Event.consoleError err], ?_, ?_, ?_⟩ <;>
        simp [chatFormSubmit, renderMessage, renderLoadingIndicator,
              removeElem, h, emitted, userAppendTexts, roleClass, List.drop_left]

theorem C3_user_message_before_send_witness :
    ¬ jsTrim sampleState.chatInput = "" ∧
    (∃ rest,
      emitted sampleState (chatFormSubmit (fun t => t) (Except.ok "reply") sampleState) =
        Event.clearInput ::
          Event.appendMessage sampleState.nextId Role.user (jsTrim sampleState.chatInput) ::
            Event.appendLoading (sampleState.nextId + 1) ::
              Event.networkSend (jsTrim sampleState.chatInput) :: rest ∧
      userAppendTexts rest = [] ∧
      (chatFormSubmit (fun t => t) (Except.ok "reply") sampleState).chatInput = "") :=
  ⟨by decide,
   C3_user_message_before_send (fun t => t) (Except.ok "reply") sampleState (by decide)⟩

/-- C5: on a successful remote reply, the model bubble appended last to the
view carries exactly the raw reply text, its rendered HTML is the
Markdown-to-HTML transformation of that text, and it is the only model-role
append the submission emits. -/
theorem C5_success_renders_markdown (parse : String → String) (reply : String)
    (s : AppState) (h : ¬ jsTrim s.chatInput = "") :
    (chatFormSubmit parse (Except.ok reply) s).messageList.getLast? =
      some { id := s.nextId + 2, classes := ["message", "model-message"],
             text := reply, html := parse reply } ∧
    modelAppendTexts (emitted s (chatFormSubmit parse (Except.ok reply) s)) =
      [reply] := by
  constructor <;>
    simp [chatFormSubmit, renderMessage, renderLoadingIndicator, removeElem,
          h, emitted, modelAppendTexts, roleClass, List.drop_left,
          List.getLast?_concat]

theorem C5_success_renders_markdown_witness :
    ¬ jsTrim sampleState.chatInput = "" ∧
    ((chatFormSubmit (fun t => t ++ "<html>") (Except.ok "**Hint 1:** x") sampleState).messageList.getLast? =
      some { id := sampleState.nextId + 2, classes := ["message", "model-message"],
             text := "**Hint 1:** x",
             html := (fun t => t ++ "<html>") "**Hint 1:** x" } ∧
     modelAppendTexts (emitted sampleState
       (chatFormSubmit (fun t => t ++ "<html>") (Except.ok "**Hint 1:** x") sampleState)) =
      ["**Hint 1:** x"]) :=
  ⟨by decide,
   C5_success_renders_markdown (fun t => t ++ "<html>") "**Hint 1:** x" sampleState (by decide)⟩

lemma getLastPairEq {α : Type} (l : List α) (a b : α) :
    (l ++ [a, b]).getLast? = some b := by
  rw [show l ++ [a, b] = (l ++ [a]) ++ [b] by simp]
  exact List.getLast?_concat _

/-- On a non-blank submission the view gains exactly the user bubble and
one model bubble (the reply on success, the error bubble on failure); the
loading indicator inserted in between is gone. -/
lemma submit_messageList (parse : String → String)
    (outcome : Except String String) (s : AppState) (hwf : wfState s)
    (h : ¬ jsTrim s.chatInput = "") :
    (chatFormSubmit parse outcome s).messageList =
      s.messageList ++
        [{ id := s.nextId, classes := ["message", "user-message"],
           text := jsTrim s.chatInput, html := parse (jsTrim s.chatInput) },
         { id := s.nextId + 2, classes := ["message", "model-message"],
           text := submitReplyText outcome,
           html := parse (submitReplyText outcome) }] := by
  have hfil : s.messageList.filter (fun e => decide (e.id ≠ s.nextId + 1)) =
      s.messageList := by
    refine List.filter_eq_self.mpr ?_
    intro e he
    have := hwf e he
    simp only [ne_eq, decide_eq_true_eq]
    omega
  cases outcome with
  | ok text =>
      simp [chatFormSubmit, renderMessage, renderLoadingIndicator, removeElem,
            h, roleClass, submitReplyText, List.filter_append, hfil]
      intro e he
      have := hwf e he
      omega
  | error err =>
      simp [chatFormSubmit, renderMessage, renderLoadingIndicator, removeElem,
            h, roleClass, submitReplyText, List.filter_append, hfil]
      intro e he
      have := hwf e he
      omega

/-- C6: on a remote-call failure during a user submission, the last message
in the view is a model bubble whose text embeds the error's textual
representation inside a fenced code block, no loading indicator remains in
the view, and the raw error detail is duplicated to the console log. -/
theorem C6_failure_error_bubble (parse : String → String) (err : String)
    (s : AppState) (hwf : wfState s) (h : ¬ jsTrim s.chatInput = "")
    (hld : ∀ e ∈ s.messageList, ¬ "loading" ∈ e.classes) :
    (chatFormSubmit parse (Except.error err) s).messageList.getLast? =
      some { id := s.nextId + 2, classes := ["message", "model-message"],
             text := errSubmitText err, html := parse (errSubmitText err) } ∧
    (∃ pre, errSubmitText err = pre ++ "```" ++ err ++ "```") ∧
    (∀ e ∈ (chatFormSubmit parse (Except.error err) s).messageList,
        ¬ "loading" ∈ e.classes) ∧
    (chatFormSubmit parse (Except.error err) s).consoleLog =
      s.consoleLog ++ [err] := by
  have hm := submit_messageList parse (Except.error err) s hwf h
  refine ⟨?_, ?_, ?_, ?_⟩
  · rw [hm, getLastPairEq]
    simp [submitReplyText]
  · refine ⟨"**Error:** Something went wrong. Please try again. \n\n", ?_⟩
    have hcat : ("**Error:** Something went wrong. Please try again. \n\n" : String) ++ "```" =
        "**Error:** Something went wrong. Please try again. \n\n```" := by decide
    rw [errSubmitText, ← hcat, String.append_assoc]
  · intro e he
    rw [hm] at he
    rcases List.mem_append.mp he with h1 | h2
    · exact hld e h1
    · simp only [List.mem_cons, List.mem_singleton] at h2
      rcases h2 with rfl | rfl | h2
      · simp
      · simp
      · simp at h2
  · simp [chatFormSubmit, renderMessage, renderLoadingIndicator, removeElem, h]

theorem C6_failure_error_bubble_witness :
    wfState sampleState ∧ ¬ jsTrim sampleState.chatInput = "" ∧
    (∀ e ∈ sampleState.messageList, ¬ "loading" ∈ e.classes) ∧
    ((chatFormSubmit (fun t => t) (Except.error "Network timeout") sampleState).messageList.getLast? =
      some { id := sampleState.nextId + 2, classes := ["message", "model-message"],
             text := errSubmitText "Network timeout",
             html := (fun t => t) (errSubmitText "Network timeout") } ∧
     (∃ pre, errSubmitText "Network timeout" = pre ++ "```" ++ "Network timeout" ++ "```") ∧
     (∀ e ∈ (chatFormSubmit (fun t => t) (Except.error "Network timeout") sampleState).messageList,
         ¬ "loading" ∈ e.classes) ∧
     (chatFormSubmit (fun t => t) (Except.error "Network timeout") sampleState).consoleLog =
       sampleState.consoleLog ++ ["Network timeout"]) :=
  ⟨by decide, by decide, by decide,
   C6_failure_error_bubble (fun t => t) "Network timeout" sampleState
     (by decide) (by decide) (by decide)⟩

/-- C8: on a remote-call failure, every message previously in the view —
including the user's own bubble appended at the start of the submission —
remains present and unchanged, in order; the only differences are that the
submission's loading indicator is gone and one error bubble is appended. -/
theorem C8_failure_preserves_messages (parse : String → String) (err : String)
    (s : AppState) (hwf : wfState s) (h : ¬ jsTrim s.chatInput = "") :
    (chatFormSubmit parse (Except.error err) s).messageList =
      s.messageList ++
        [{ id := s.nextId, classes := ["message", "user-message"],
           text := jsTrim s.chatInput, html := parse (jsTrim s.chatInput) },
         { id := s.nextId + 2, classes := ["message", "model-message"],
           text := errSubmitText err, html := parse (errSubmitText err) }] := by
  rw [submit_messageList parse (Except.error err) s hwf h]
  simp [submitReplyText]

theorem C8_failure_preserves_messages_witness :
    wfState sampleState ∧ ¬ jsTrim sampleState.chatInput = "" ∧
    (chatFormSubmit (fun t => t) (Except.error "boom") sampleState).messageList =
      sampleState.messageList ++
        [{ id := sampleState.nextId, classes := ["message", "user-message"],
           text := jsTrim sampleState.chatInput,
           html := (fun t => t) (jsTrim sampleState.chatInput) },
         { id := sampleState.nextId + 2, classes := ["message", "model-message"],
           text := errSubmitText "boom",
           html := (fun t => t) (errSubmitText "boom") }] :=
  ⟨by decide, by decide,
   C8_failure_preserves_messages (fun t => t) "boom" sampleState (by decide) (by decide)⟩

/-- C7: when startup succeeds (credential present), exactly one outbound
`Hello` is sent during the whole bootstrap, exactly one model bubble (the
reply, or the initialization-error bubble) is rendered in response, and the
submit handler is registered, so a later form submission runs the normal
handler — also after an initialization-exchange failure. -/
theorem C7_startup_hello (parse : String → String) (key : Option String)
    (out outcome2 : Except String String) (input : String)
    (h : keyMissing key = false) :
    netSends (startup parse key out).events = ["Hello"] ∧
    (modelAppendTexts (startup parse key out).events).length = 1 ∧
    (startup parse key out).handlerRegistered = true ∧
    typeAndSubmit parse input outcome2 (startup parse key out) =
      chatFormSubmit parse outcome2
        { startup parse key out with chatInput := input } := by
  cases out with
  | ok text =>
      simp [startup, h, initializeChat, renderMessage, renderLoadingIndicator,
            removeElem, netSends, modelAppendTexts, typeAndSubmit,
            dispatchSubmit, initState]
  | error err =>
      simp [startup, h, initializeChat, renderMessage, renderLoadingIndicator,
            removeElem, netSends, modelAppendTexts, typeAndSubmit,
            dispatchSubmit, initState]

theorem C7_startup_hello_witness :
    keyMissing (some "AIza") = false ∧
    (netSends (startup (fun t => t) (some "AIza") (Except.error "Network timeout")).events = ["Hello"] ∧
     (modelAppendTexts (startup (fun t => t) (some "AIza") (Except.error "Network timeout")).events).length = 1 ∧
     (startup (fun t => t) (some "AIza") (Except.error "Network timeout")).handlerRegistered = true ∧
     typeAndSubmit (fun t => t) "2+2=?" (Except.ok "4")
         (startup (fun t => t) (some "AIza") (Except.error "Network timeout")) =
       chatFormSubmit (fun t => t) (Except.ok "4")
         { startup (fun t => t) (some "AIza") (Except.error "Network timeout") with chatInput := "2+2=?" }) :=
  ⟨by decide,
   C7_startup_hello (fun t => t) (some "AIza") (Except.error "Network timeout")
     (Except.ok "4") "2+2=?" (by decide)⟩

lemma submit_handler (parse : String → String) (outcome : Except String String)
    (s : AppState) :
    (chatFormSubmit parse outcome s).handlerRegistered = s.handlerRegistered := by
  by_cases h : jsTrim s.chatInput = ""
  · simp [chatFormSubmit, h]
  · cases outcome <;>
      simp [chatFormSubmit, renderMessage, renderLoadingIndicator, removeElem, h]

lemma submit_nextId (parse : String → String) (outcome : Except String String)
    (s : AppState) (h : ¬ jsTrim s.chatInput = "") :
    (chatFormSubmit parse outcome s).nextId = s.nextId + 3 := by
  cases outcome <;>
    simp [chatFormSubmit, renderMessage, renderLoadingIndicator, removeElem, h]

lemma submit_wf (parse : String → String) (outcome : Except String String)
    (s : AppState) (hwf : wfState s) : wfState (chatFormSubmit parse outcome s) := by
  by_cases h : jsTrim s.chatInput = ""
  · simpa [chatFormSubmit, h] using hwf
  · intro e he
    rw [submit_messageList parse outcome s hwf h] at he
    rw [submit_nextId parse outcome s h]
    rcases List.mem_append.mp he with h1 | h2
    · have := hwf e h1
      omega
    · simp only [List.mem_cons, List.mem_singleton] at h2
      rcases h2 with rfl | rfl | h2
      · change s.nextId < s.nextId + 3
        omega
      · change s.nextId + 2 < s.nextId + 3
        omega
      · simp at h2

lemma userBubbleCount_append (l₁ l₂ : List Elem) :
    userBubbleCount (l₁ ++ l₂) = userBubbleCount l₁ + userBubbleCount l₂ := by
  simp [userBubbleCount, List.filter_append]

lemma submit_userCount (parse : String → String) (outcome : Except String String)
    (s : AppState) (hwf : wfState s) :
    userBubbleCount (chatFormSubmit parse outcome s).messageList =
      userBubbleCount s.messageList +
        (if jsTrim s.chatInput = "" then 0 else 1) := by
  by_cases h : jsTrim s.chatInput = ""
  · simp [chatFormSubmit, h]
  · rw [submit_messageList parse outcome s hwf h, userBubbleCount_append]
    congr 1
    rw [if_neg h]
    rfl

lemma typeAndSubmit_handler (parse : String → String) (input : String)
    (outcome : Except String String) (s : AppState) :
    (typeAndSubmit parse input outcome s).handlerRegistered = s.handlerRegistered := by
  by_cases hr : s.handlerRegistered
  · simp [typeAndSubmit, dispatchSubmit, hr, submit_handler]
  · simp [typeAndSubmit, dispatchSubmit, hr]

lemma typeAndSubmit_wf (parse : String → String) (input : String)
    (outcome : Except String String) (s : AppState) (hwf : wfState s) :
    wfState (typeAndSubmit parse input outcome s) := by
  have hwf2 : wfState { s with chatInput := input } := hwf
  by_cases hr : s.handlerRegistered
  · have := submit_wf parse outcome { s with chatInput := input } hwf2
    simpa [typeAndSubmit, dispatchSubmit, hr] using this
  · simpa [typeAndSubmit, dispatchSubmit, hr] using hwf2

lemma typeAndSubmit_userCount (parse : String → String) (input : String)
    (outcome : Except String String) (s : AppState) (hwf : wfState s) :
    userBubbleCount (typeAndSubmit parse input outcome s).messageList =
      userBubbleCount s.messageList +
        (if s.handlerRegistered = true ∧ ¬ jsTrim input = "" then 1 else 0) := by
  by_cases hr : s.handlerRegistered
  · have hwf2 : wfState { s with chatInput := input } := hwf
    have hc := submit_userCount parse outcome { s with chatInput := input } hwf2
    by_cases ht : jsTrim input = ""
    · simp [typeAndSubmit, dispatchSubmit, hr, ht] at hc ⊢
      simpa [ht] using hc
    · simp [typeAndSubmit, dispatchSubmit, hr, ht] at hc ⊢
      simpa [ht] using hc
  · simp [typeAndSubmit, dispatchSubmit, hr]

lemma runSubmits_props (parse : String → String) :
    ∀ (subs : List (String × Except String String)) (s : AppState),
      wfState s →
      (runSubmits parse s subs).handlerRegistered = s.handlerRegistered ∧
      wfState (runSubmits parse s subs) ∧
      userBubbleCount (runSubmits parse s subs).messageList =
        userBubbleCount s.messageList +
          (if s.handlerRegistered = true
            then subs.countP (fun p => !(jsTrim p.1 == "")) else 0) := by
  intro subs
  induction subs with
  | nil =>
      intro s hwf
      refine ⟨rfl, hwf, ?_⟩
      by_cases hr : s.handlerRegistered = true <;> simp [runSubmits, hr]
  | cons p rest ih =>
      intro s hwf
      obtain ⟨input, outcome⟩ := p
      have h1 := typeAndSubmit_handler parse input outcome s
      have h2 := typeAndSubmit_wf parse input outcome s hwf
      have h3 := typeAndSubmit_userCount parse input outcome s hwf
      obtain ⟨ih1, ih2, ih3⟩ := ih (typeAndSubmit parse input outcome s) h2
      refine ⟨?_, ?_, ?_⟩
      · simp only [runSubmits]
        rw [ih1, h1]
      · simp only [runSubmits]
        exact ih2
      · simp only [runSubmits]
        rw [ih3, h3, h1]
        by_cases hr : s.handlerRegistered = true
        · by_cases ht : jsTrim input = ""
          · simp [hr, ht, List.countP_cons]
          · simp [hr, ht, List.countP_cons]
            omega
        · simp [hr]

/-- C9: the bootstrap's synthetic `Hello` is sent to the chat client but
never rendered as a user-role bubble: the startup trace contains no
user-role append (though it does send `Hello` when the key is present), and
after any sequence of form submissions the number of user bubbles in the
view equals the number of submissions with non-blank input — every visible
user bubble originates from a form submission. -/
theorem C9_hello_never_user_bubble (parse : String → String)
    (key : Option String) (out0 : Except String String)
    (subs : List (String × Except String String)) :
    userAppendTexts (startup parse key out0).events = [] ∧
    netSends (startup parse key out0).events =
      (if keyMissing key = true then [] else ["Hello"]) ∧
    userBubbleCount (runSubmits parse (startup parse key out0) subs).messageList =
      (if keyMissing key = true then 0
       else subs.countP (fun p => !(jsTrim p.1 == ""))) := by
  by_cases hk : keyMissing key = true
  · have hwf : wfState (startup parse key out0) := by
      intro e he
      simp [startup, hk, initState] at he ⊢
      subst he
      decide
    obtain ⟨r1, r2, r3⟩ := runSubmits_props parse subs (startup parse key out0) hwf
    refine ⟨?_, ?_, ?_⟩
    · simp [startup, hk, initState, userAppendTexts]
    · simp [startup, hk, initState, netSends]
    · rw [r3]
      simp [startup, hk, initState, userBubbleCount, missingKeyErrorElem]
  · have hk2 : keyMissing key = false := by
      cases hkk : keyMissing key
      · rfl
      · exact absurd hkk hk
    have hwf : wfState (startup parse key out0) := by
      cases out0 with
      | ok text =>
          intro e he
          simp [startup, hk2, initializeChat, renderMessage,
                renderLoadingIndicator, removeElem, initState] at he ⊢
          subst he
          simp
      | error err =>
          intro e he
          simp [startup, hk2, initializeChat, renderMessage,
                renderLoadingIndicator, removeElem, initState] at he ⊢
          subst he
          simp
    have e4 : (startup parse key out0).handlerRegistered = true := by
      cases out0 <;>
        simp [startup, hk2, initializeChat, renderMessage,
              renderLoadingIndicator, removeElem, initState]
    have e3 : userBubbleCount (startup parse key out0).messageList = 0 := by
      cases out0 <;>
        simp [startup, hk2, initializeChat, renderMessage,
              renderLoadingIndicator, removeElem, initState, userBubbleCount,
              roleClass]
    obtain ⟨r1, r2, r3⟩ := runSubmits_props parse subs (startup parse key out0) hwf
    refine ⟨?_, ?_, ?_⟩
    · cases out0 <;>
        simp [startup, hk2, initializeChat, renderMessage,
              renderLoadingIndicator, removeElem, initState, userAppendTexts]
    · cases out0 <;>
        simp [startup, hk2, initializeChat, renderMessage,
              renderLoadingIndicator, removeElem, initState, netSends]
    · rw [r3, e3, e4]
      simp [hk2]
